import Mathlib

/-!
Verification development for the illumate practice-management backend.

The Python source is shallowly embedded: each storage implementation
(MockDatabase in app/infrastructure/database/mock_database.py, RealDatabase
in app/infrastructure/database/real_database.py) becomes a pure state
transformer over an explicit store; the FastAPI auth endpoints in
app/main.py become functions over the DatabaseInterface operations; the
auth_service module (app/domain/services/auth_service.py) becomes pure
functions.  Conventions of the embedding:

* Python UUIDs are natural numbers; uuid4() randomness becomes an explicit
  fresh-id argument of the operation that calls it, and
  secrets.token_urlsafe(32) becomes an explicit fresh-token argument.
* Python dicts keyed by UUID/str become association lists with dict
  replace-or-append insertion semantics.
* created_at / updated_at timestamps (datetime.now side effects) are
  elided from the records: no verified property mentions them.
* A Python Optional[T] parameter or field becomes Option T; the embedding
  keeps the distinction the source draws between passing None and passing
  a falsy value such as the empty string.
* Exceptions that a function can raise past its boundary are explicit
  error constructors of the result type; an except-clause that swallows
  them becomes a match on that result.
-/

namespace Illumate

/-- Python uuid.UUID values, modelled as natural numbers (128-bit values). -/
abbrev UUID := Nat

/-- Dict replace-or-append insertion: d[k] = v replaces the value under an
existing key in place and appends a fresh key at the end. -/
def alInsert {κ ν : Type} [BEq κ] (k : κ) (v : ν) (l : List (κ × ν)) : List (κ × ν) :=
  if l.any (fun p => p.1 == k) then
    l.map (fun p => if p.1 == k then (k, v) else p)
  else
    l ++ [(k, v)]

/-- Dict del d[k]. -/
def alErase {κ ν : Type} [BEq κ] (k : κ) (l : List (κ × ν)) : List (κ × ν) :=
  l.filter (fun p => p.1 != k)

/-- A row of the users table (models.User): id, tenant_id, email,
password_hash, role, locale, is_verified, verification_token.
Timestamps elided. -/
structure UserRec where
  id : UUID
  tenant_id : UUID
  email : String
  password_hash : String
  role : String
  locale : String
  is_verified : Bool
  verification_token : Option String
  deriving Repr, DecidableEq

/-- A row of the tenants table (models.Tenant). Timestamps elided. -/
structure TenantRec where
  id : UUID
  name : String
  plan : String
  deriving Repr, DecidableEq

/-- A row of the clients table (models.Client): id, tenant_id, full_name,
birthday, tags.  Timestamps elided; birthday kept as an opaque string. -/
structure ClientRec where
  id : UUID
  tenant_id : UUID
  full_name : String
  birthday : Option String
  tags : List String
  deriving Repr, DecidableEq

/-- One key/value entry of a client_data dict passed to update_client.
The modelled key space covers the data columns of models.Client that the
ClientCreate schema and the update paths can carry, plus arbitrary unknown
string keys (which neither implementation applies). -/
inductive ClientEntry where
  | full_name (v : String)
  | birthday (v : Option String)
  | tags (v : List String)
  | tenant_id (v : UUID)
  | other (key : String)
  deriving Repr, DecidableEq

/-- The tenant_data dict accepted by create_tenant: name required, plan
optional (dict .get with default applied inside the operation). -/
structure TenantData where
  name : String
  plan : Option String
  deriving Repr, DecidableEq

/-- The user_data dict accepted by create_user.  An Option field is none
when the key is absent (or, for verification_token, explicitly None). -/
structure UserData where
  email : String
  role : String
  locale : Option String
  tenant_id : UUID
  password_hash : Option String
  is_verified : Option Bool
  verification_token : Option String
  deriving Repr, DecidableEq

/-! ## MockDatabase (app/infrastructure/database/mock_database.py)

In-memory store: dicts keyed by UUID plus the two secondary indexes
email_to_user and verification_tokens. -/

/-- The mutable state of a MockDatabase instance. -/
structure MockDB where
  tenants : List (UUID × TenantRec)
  users : List (UUID × UserRec)
  clients : List (UUID × ClientRec)
  email_to_user : List (String × UUID)
  verification_tokens : List (String × UUID)
  deriving Repr, DecidableEq

namespace MockDatabase

/-- self.tenants.get(tenant_id). -/
def get_tenant (db : MockDB) (tenant_id : UUID) : Option TenantRec :=
  db.tenants.lookup tenant_id

/-- create_tenant: fresh uuid4 id, plan defaulted to "free". -/
def create_tenant (db : MockDB) (freshId : UUID) (data : TenantData) :
    TenantRec × MockDB :=
  let tenant : TenantRec := { id := freshId, name := data.name, plan := data.plan.getD "free" }
  (tenant, { db with tenants := alInsert freshId tenant db.tenants })

/-- self.users.get(user_id). -/
def get_user (db : MockDB) (user_id : UUID) : Option UserRec :=
  db.users.lookup user_id

/-- Lookup through the email_to_user secondary index. -/
def get_user_by_email (db : MockDB) (email : String) : Option UserRec :=
  match db.email_to_user.lookup email with
  | some user_id => db.users.lookup user_id
  | none => none

/-- Lookup through the verification_tokens secondary index. -/
def get_user_by_verification_token (db : MockDB) (token : String) : Option UserRec :=
  match db.verification_tokens.lookup token with
  | some user_id => db.users.lookup user_id
  | none => none

/-- create_user: builds the user dict with .get defaults, stores it and
updates both secondary indexes; the token index is only written when the
token is truthy (Python: if user['verification_token']:). -/
def create_user (db : MockDB) (freshId : UUID) (d : UserData) : UserRec × MockDB :=
  let user : UserRec :=
    { id := freshId
      email := d.email
      role := d.role
      locale := d.locale.getD "en"
      tenant_id := d.tenant_id
      password_hash := d.password_hash.getD ""
      is_verified := d.is_verified.getD false
      verification_token := d.verification_token }
  let db := { db with
    users := alInsert freshId user db.users
    email_to_user := alInsert d.email freshId db.email_to_user }
  let db :=
    match user.verification_token with
    | some t =>
        if t != "" then
          { db with verification_tokens := alInsert t freshId db.verification_tokens }
        else db
    | none => db
  (user, db)

/-- create_user_with_password: simulated hashing and is_verified forced to
true before delegating to create_user. -/
def create_user_with_password (db : MockDB) (freshId : UUID) (d : UserData)
    (password : String) : UserRec × MockDB :=
  create_user db freshId
    { d with password_hash := some ("hashed_" ++ password), is_verified := some true }

/-- update_user_verification: sets is_verified always; touches the token
field and the index only when the parameter is not None.  The delete
branch reads the token field after it was already overwritten, exactly as
the source does. -/
def update_user_verification (db : MockDB) (user_id : UUID) (is_verified : Bool)
    (verification_token : Option String) : Option UserRec × MockDB :=
  match db.users.lookup user_id with
  | none => (none, db)
  | some user =>
    let user := { user with is_verified := is_verified }
    let (user, db) :=
      match verification_token with
      | none => (user, db)
      | some t =>
        let user := { user with verification_token := some t }
        if t != "" then
          (user, { db with verification_tokens := alInsert t user_id db.verification_tokens })
        else
          let old_token := user.verification_token
          match old_token with
          | some o =>
              if o != "" && (db.verification_tokens.lookup o).isSome then
                (user, { db with verification_tokens := alErase o db.verification_tokens })
              else (user, db)
          | none => (user, db)
    (some user, { db with users := alInsert user_id user db.users })

/-- self.clients.get(client_id). -/
def get_client (db : MockDB) (client_id : UUID) : Option ClientRec :=
  db.clients.lookup client_id

/-- create_client over a prebuilt record (fields fixed by the source). -/
def create_client (db : MockDB) (freshId : UUID) (c : ClientRec) : ClientRec × MockDB :=
  let c := { c with id := freshId }
  (c, { db with clients := alInsert freshId c db.clients })

/-- One iteration of the update_client loop: only keys in
['full_name', 'birthday', 'tags'] are applied. -/
def applyClientEntry (c : ClientRec) (e : ClientEntry) : ClientRec :=
  match e with
  | .full_name v => { c with full_name := v }
  | .birthday v => { c with birthday := v }
  | .tags v => { c with tags := v }
  | .tenant_id _ => c
  | .other _ => c

/-- update_client: whitelist field update, None when the id is unknown. -/
def update_client (db : MockDB) (client_id : UUID) (client_data : List ClientEntry) :
    Option ClientRec × MockDB :=
  match db.clients.lookup client_id with
  | none => (none, db)
  | some c =>
    let c := client_data.foldl applyClientEntry c
    (some c, { db with clients := alInsert client_id c db.clients })

end MockDatabase

/-! ## RealDatabase (app/infrastructure/database/real_database.py)

Rows of the relational store; each query becomes a filter/find over the
row lists and each commit an in-place list update. -/

/-- The rows visible through one RealDatabase session. -/
structure RealDB where
  tenants : List TenantRec
  users : List UserRec
  clients : List ClientRec
  deriving Repr, DecidableEq

namespace RealDatabase

/-- query(Tenant).filter(id == tenant_id).first(). -/
def get_tenant (db : RealDB) (tenant_id : UUID) : Option TenantRec :=
  db.tenants.find? (fun t => t.id == tenant_id)

/-- create_tenant: insert a new row (uuid4 default becomes freshId). -/
def create_tenant (db : RealDB) (freshId : UUID) (data : TenantData) :
    TenantRec × RealDB :=
  let tenant : TenantRec := { id := freshId, name := data.name, plan := data.plan.getD "free" }
  (tenant, { db with tenants := db.tenants ++ [tenant] })

/-- query(User).filter(id == user_id).first(). -/
def get_user (db : RealDB) (user_id : UUID) : Option UserRec :=
  db.users.find? (fun u => u.id == user_id)

/-- query(User).filter(email == email).first(). -/
def get_user_by_email (db : RealDB) (email : String) : Option UserRec :=
  db.users.find? (fun u => u.email == email)

/-- query(User).filter(verification_token == token).first(). -/
def get_user_by_verification_token (db : RealDB) (token : String) : Option UserRec :=
  db.users.find? (fun u => u.verification_token == some token)

/-- create_user: insert a new row; column defaults from models.User
(locale "en", is_verified false) apply to absent dict keys. -/
def create_user (db : RealDB) (freshId : UUID) (d : UserData) : UserRec × RealDB :=
  let user : UserRec :=
    { id := freshId
      email := d.email
      role := d.role
      locale := d.locale.getD "en"
      tenant_id := d.tenant_id
      password_hash := d.password_hash.getD ""
      is_verified := d.is_verified.getD false
      verification_token := d.verification_token }
  (user, { db with users := db.users ++ [user] })

/-- update_user_verification: sets is_verified always; assigns the token
column only when the parameter is not None (so passing None cannot clear
it). -/
def update_user_verification (db : RealDB) (user_id : UUID) (is_verified : Bool)
    (verification_token : Option String) : Option UserRec × RealDB :=
  match db.users.find? (fun u => u.id == user_id) with
  | none => (none, db)
  | some user =>
    let user := { user with is_verified := is_verified }
    let user :=
      match verification_token with
      | some t => { user with verification_token := some t }
      | none => user
    (some user, { db with users := db.users.map (fun u => if u.id == user_id then user else u) })

/-- query(Client).filter(id == client_id).first(). -/
def get_client (db : RealDB) (client_id : UUID) : Option ClientRec :=
  db.clients.find? (fun c => c.id == client_id)

/-- One iteration of the update_client loop: setattr for every key that is
an attribute of the Client model, which includes tenant_id. -/
def applyClientEntry (c : ClientRec) (e : ClientEntry) : ClientRec :=
  match e with
  | .full_name v => { c with full_name := v }
  | .birthday v => { c with birthday := v }
  | .tags v => { c with tags := v }
  | .tenant_id v => { c with tenant_id := v }
  | .other _ => c

/-- update_client: hasattr-guarded setattr update, None when the id is
unknown. -/
def update_client (db : RealDB) (client_id : UUID) (client_data : List ClientEntry) :
    Option ClientRec × RealDB :=
  match db.clients.find? (fun c => c.id == client_id) with
  | none => (none, db)
  | some c =>
    let c := client_data.foldl applyClientEntry c
    (some c, { db with clients := db.clients.map (fun x => if x.id == client_id then c else x) })

end RealDatabase

/-! ## auth_service (app/domain/services/auth_service.py) -/

/-- Failure passlib's CryptContext.verify raises past its boundary when
the stored digest cannot be identified as one of the configured schemes. -/
inductive PasslibError where
  | unknownHash
  deriving Repr, DecidableEq

/-- Bcrypt digest identification as passlib performs it before verifying:
the digest must carry a recognised bcrypt prefix. -/
def bcryptIdentify (digest : String) : Bool :=
  ["$2b$", "$2a$", "$2y$"].any (fun p => p.data.isPrefixOf digest.data)

/-- Model of pwd_context.hash for CryptContext(schemes=["bcrypt"]): a
digest with the bcrypt prefix whose payload determines the password (the
salt, irrelevant to every claim, is elided). -/
def get_password_hash (password : String) : String :=
  "$2b$12$" ++ password

/-- Model of pwd_context.verify: identify the digest scheme first, raising
UnknownHashError when the digest is not a recognised bcrypt digest, then
compare. -/
def pwd_context_verify (plain digest : String) : Except PasslibError Bool :=
  if bcryptIdentify digest then
    Except.ok (digest == get_password_hash plain)
  else
    Except.error PasslibError.unknownHash

/-- verify_password is a bare delegation to pwd_context.verify: no
try/except, so an identification failure propagates to the caller. -/
def verify_password (plain_password hashed_password : String) : Except PasslibError Bool :=
  pwd_context_verify plain_password hashed_password

/-- SECRET_KEY-signed token payload: the sub claim (absent or a string)
and the absolute exp claim in seconds. -/
structure TokenPayload where
  sub : Option String
  exp : Int
  deriving Repr, DecidableEq

/-- Python truthiness of an Optional[timedelta]: None and timedelta(0)
are falsy. -/
def timedeltaTruthy : Option Int → Bool
  | none => false
  | some d => d != 0

/-- ACCESS_TOKEN_EXPIRE_MINUTES from auth_service. -/
def ACCESS_TOKEN_EXPIRE_MINUTES : Int := 30

/-- create_access_token: data = {"sub": sub}; exp = now + expires_delta
when the delta is truthy, else now + timedelta(minutes=15).  Signing
(jwt.encode) is elided: the payload is the observable content. -/
def create_access_token (sub : String) (expires_delta : Option Int) (now : Int) :
    TokenPayload :=
  let expire : Int :=
    if timedeltaTruthy expires_delta then now + expires_delta.getD 0
    else now + 15 * 60
  { sub := some sub, exp := expire }

/-- The failures jose's jwt.decode raises, all subclasses of JWTError:
bad signature, malformed token structure, expired exp claim, bad claims. -/
inductive JWTError where
  | signature_mismatch
  | malformed
  | expired_signature
  | claims_error
  deriving Repr, DecidableEq

/-- verify_token: calls jwt.decode (modelled by its outcome function) and
swallows every JWTError into None.  It is total: no error reaches the
caller. -/
def verify_token (decode : String → Except JWTError TokenPayload) (token : String) :
    Option TokenPayload :=
  match decode token with
  | Except.ok payload => some payload
  | Except.error _ => none

/-! ## Python uuid.UUID string parsing (used by get_current_user) -/

/-- Hex digit test as int(hex, 16) accepts. -/
def isHexChar (c : Char) : Bool :=
  c.isDigit || (c ≥ 'a' && c ≤ 'f') || (c ≥ 'A' && c ≤ 'F')

/-- Numeric value of a hex digit. -/
def hexCharVal (c : Char) : Nat :=
  if c.isDigit then c.toNat - 48
  else if c ≥ 'a' then c.toNat - 87
  else c.toNat - 55

/-- str.replace(pat, "") over char lists, driven by a fuel bounded by the
list length (each step consumes at least one char of a non-empty pattern). -/
def stripPatternAux (pat : List Char) : Nat → List Char → List Char
  | 0, l => l
  | _ + 1, [] => []
  | fuel + 1, c :: rest =>
    if pat.isPrefixOf (c :: rest) then stripPatternAux pat fuel (rest.drop (pat.length - 1))
    else c :: stripPatternAux pat fuel rest

/-- str.replace(pat, ""): remove every occurrence of pat. -/
def stripPattern (pat : List Char) (l : List Char) : List Char :=
  stripPatternAux pat l.length l

/-- uuid.UUID(hex=s): strip urn:/uuid: markers, surrounding braces and all
hyphens, then require exactly 32 hex digits; a failure is a ValueError. -/
def pythonUUID (s : String) : Option UUID :=
  let cs := stripPattern "uuid:".data (stripPattern "urn:".data s.data)
  let isBrace : Char → Bool := fun c => c == Char.ofNat 123 || c == Char.ofNat 125
  let cs := cs.dropWhile isBrace
  let cs := (cs.reverse.dropWhile isBrace).reverse
  let cs := cs.filter (fun c => c != '-')
  if cs.length == 32 && cs.all isHexChar then
    some (cs.foldl (fun a c => a * 16 + hexCharVal c) 0)
  else
    none

/-- str(uuid.UUID): 32 lowercase hex digits in 8-4-4-4-12 grouping. -/
def uuidCanonicalStr (u : UUID) : String :=
  let h := (Nat.toDigits 16 (u % 2 ^ 128)).asString
  let h := String.mk (List.replicate (32 - h.length) '0') ++ h
  let cs := h.data
  String.mk (cs.take 8) ++ "-" ++ String.mk ((cs.drop 8).take 4) ++ "-" ++
    String.mk ((cs.drop 12).take 4) ++ "-" ++ String.mk ((cs.drop 16).take 4) ++ "-" ++
    String.mk (cs.drop 20)

/-! ## The DatabaseInterface and the auth endpoints (app/main.py)

The endpoints are written against the abstract interface exactly as the
handlers are written against DatabaseInterface, and instantiated with the
two implementations. -/

/-- The subset of DatabaseInterface the auth endpoints call, as a record
of operations over a storage state σ.  Creation operations take the fresh
uuid4 value as an argument. -/
structure DatabaseOps (σ : Type) where
  get_tenant : σ → UUID → Option TenantRec
  create_tenant : σ → UUID → TenantData → TenantRec × σ
  get_user : σ → UUID → Option UserRec
  get_user_by_email : σ → String → Option UserRec
  get_user_by_verification_token : σ → String → Option UserRec
  create_user : σ → UUID → UserData → UserRec × σ
  update_user_verification : σ → UUID → Bool → Option String → Option UserRec × σ

/-- The MockDatabase instantiation of the interface. -/
def mockOps : DatabaseOps MockDB where
  get_tenant := MockDatabase.get_tenant
  create_tenant := MockDatabase.create_tenant
  get_user := MockDatabase.get_user
  get_user_by_email := MockDatabase.get_user_by_email
  get_user_by_verification_token := MockDatabase.get_user_by_verification_token
  create_user := MockDatabase.create_user
  update_user_verification := MockDatabase.update_user_verification

/-- The RealDatabase instantiation of the interface. -/
def realOps : DatabaseOps RealDB where
  get_tenant := RealDatabase.get_tenant
  create_tenant := RealDatabase.create_tenant
  get_user := RealDatabase.get_user
  get_user_by_email := RealDatabase.get_user_by_email
  get_user_by_verification_token := RealDatabase.get_user_by_verification_token
  create_user := RealDatabase.create_user
  update_user_verification := RealDatabase.update_user_verification

/-- An HTTPException raised by a handler: status code and detail. -/
structure HTTPError where
  status_code : Nat
  detail : String
  deriving Repr, DecidableEq

/-- Outcome of a handler body: a value or a raised HTTPException. -/
inductive ApiResult (α : Type) where
  | ok (value : α)
  | error (e : HTTPError)
  deriving Repr, DecidableEq

/-- The AuthResponse schema returned by register and login. -/
structure AuthResponse where
  message : String
  user_id : UUID
  email : String
  role : String
  tenant_id : UUID
  deriving Repr, DecidableEq

/-- The AuthRegister request schema. -/
structure AuthRegister where
  email : String
  password : String
  tenant_name : String
  role : String
  locale : String
  deriving Repr, DecidableEq

/-- The AuthLogin request schema. -/
structure AuthLogin where
  email : String
  password : String
  deriving Repr, DecidableEq

/-- The session cookie the login handler sets. -/
structure SessionCookie where
  key : String
  token : TokenPayload
  httponly : Bool
  secure : Bool
  samesite : String
  max_age : Nat
  deriving Repr, DecidableEq

/-- POST /auth/register: duplicate-email guard, then tenant creation, user
creation with hashed password and fresh verification token, and the
acknowledgement.  The verification email send result is ignored by the
handler. -/
def register {σ : Type} (ops : DatabaseOps σ) (db : σ) (auth_data : AuthRegister)
    (freshTenantId freshUserId : UUID) (freshToken : String) :
    ApiResult AuthResponse × σ :=
  match ops.get_user_by_email db auth_data.email with
  | some _ => (ApiResult.error { status_code := 400, detail := "Email already registered" }, db)
  | none =>
    let (tenant, db) := ops.create_tenant db freshTenantId { name := auth_data.tenant_name, plan := none }
    let password_hash := get_password_hash auth_data.password
    let (user, db) := ops.create_user db freshUserId
      { email := auth_data.email
        role := auth_data.role
        locale := some auth_data.locale
        tenant_id := tenant.id
        password_hash := some password_hash
        is_verified := some false
        verification_token := some freshToken }
    (ApiResult.ok
      { message := "User registered successfully. Please check your email for verification."
        user_id := user.id
        email := user.email
        role := user.role
        tenant_id := user.tenant_id }, db)

/-- Outcome of the login handler: success with response and cookie, a
raised HTTPException, or an exception propagated out of verify_password. -/
inductive LoginResult where
  | success (resp : AuthResponse) (cookie : SessionCookie)
  | httpError (e : HTTPError)
  | uncaughtPasslib (e : PasslibError)
  deriving Repr, DecidableEq

/-- POST /auth/login: lookup by email, password check, verification check,
then token issuance (explicit 30-minute delta) and the session cookie
(http-only, lax, max_age 1800). -/
def login {σ : Type} (ops : DatabaseOps σ) (db : σ) (auth_data : AuthLogin)
    (now : Int) : LoginResult :=
  match ops.get_user_by_email db auth_data.email with
  | none => LoginResult.httpError { status_code := 401, detail := "Incorrect email or password" }
  | some user =>
    match verify_password auth_data.password user.password_hash with
    | Except.error e => LoginResult.uncaughtPasslib e
    | Except.ok passwordOk =>
      if !passwordOk then
        LoginResult.httpError { status_code := 401, detail := "Incorrect email or password" }
      else if !user.is_verified then
        LoginResult.httpError
          { status_code := 401
            detail := "Email not verified. Please check your email and verify your account." }
      else
        let access_token_expires : Int := ACCESS_TOKEN_EXPIRE_MINUTES * 60
        let access_token :=
          create_access_token (uuidCanonicalStr user.id) (some access_token_expires) now
        LoginResult.success
          { message := "Login successful"
            user_id := user.id
            email := user.email
            role := user.role
            tenant_id := user.tenant_id }
          { key := "session_token"
            token := access_token
            httponly := true
            secure := false
            samesite := "lax"
            max_age := 1800 }

/-- GET /auth/verify: look the token up, 400 when no user holds it, else
update the verification state passing None for the token, look the tenant
up and send the welcome email (both without effect on the store). -/
def verify_email {σ : Type} (ops : DatabaseOps σ) (db : σ) (token : String) :
    ApiResult String × σ :=
  match ops.get_user_by_verification_token db token with
  | none => (ApiResult.error { status_code := 400, detail := "Invalid or expired verification token" }, db)
  | some user =>
    let (_, db) := ops.update_user_verification db user.id true none
    let _tenant := ops.get_tenant db user.tenant_id
    (ApiResult.ok "Email verified successfully", db)

/-- POST /auth/resend-verification: 404 for an unknown email, 400 when
already verified, persist a fresh token, then 500 when the email send
reports failure (the token stays persisted). -/
def resend_verification_email {σ : Type} (ops : DatabaseOps σ) (db : σ)
    (email : String) (freshToken : String) (emailSendOk : Bool) :
    ApiResult String × σ :=
  match ops.get_user_by_email db email with
  | none => (ApiResult.error { status_code := 404, detail := "User not found" }, db)
  | some user =>
    if user.is_verified then
      (ApiResult.error { status_code := 400, detail := "Email is already verified" }, db)
    else
      let (updated_user, db) := ops.update_user_verification db user.id false (some freshToken)
      match updated_user with
      | none => (ApiResult.error { status_code := 500, detail := "Failed to update verification token" }, db)
      | some _ =>
        let _tenant := ops.get_tenant db user.tenant_id
        if emailSendOk then
          (ApiResult.ok "Verification email sent successfully", db)
        else
          (ApiResult.error { status_code := 500, detail := "Failed to send verification email" }, db)

/-- Credential selection in get_current_user: the bearer credential when
present and truthy, else the session_token cookie. -/
def pickToken (bearer cookie : Option String) : Option String :=
  match bearer with
  | some t => if t != "" then some t else cookie
  | none => cookie

/-- Outcome of the get_current_user dependency: the resolved user, the
uniform 401 credentials exception, or the ValueError UUID(user_id) raises
uncaught. -/
inductive CurrentUserResult where
  | ok (u : UserRec)
  | unauthorized
  | uncaughtValueError (sub : String)
  deriving Repr, DecidableEq

/-- get_current_user: token selection, falsy-token guard, verify_token,
sub-claim presence, UUID parse (unguarded), then user lookup. -/
def get_current_user {σ : Type} (ops : DatabaseOps σ) (db : σ)
    (decode : String → Except JWTError TokenPayload)
    (bearer cookie : Option String) : CurrentUserResult :=
  match pickToken bearer cookie with
  | none => CurrentUserResult.unauthorized
  | some t =>
    if t == "" then CurrentUserResult.unauthorized
    else
      match verify_token decode t with
      | none => CurrentUserResult.unauthorized
      | some payload =>
        match payload.sub with
        | none => CurrentUserResult.unauthorized
        | some user_id =>
          match pythonUUID user_id with
          | none => CurrentUserResult.uncaughtValueError user_id
          | some uid =>
            match ops.get_user db uid with
            | none => CurrentUserResult.unauthorized
            | some u => CurrentUserResult.ok u

/-! ## Concrete fixtures -/

/-- An unverified registered user holding verification token "t1". -/
def sampleUser : UserRec :=
  { id := 1, tenant_id := 1, email := "a@x.com", password_hash := get_password_hash "pw"
    role := "therapist", locale := "en", is_verified := false, verification_token := some "t1" }

/-- The tenant owning sampleUser. -/
def sampleTenant : TenantRec := { id := 1, name := "Acme", plan := "free" }

/-- The in-memory store right after sampleUser registered: both secondary
indexes populated. -/
def mockDb0 : MockDB :=
  { tenants := [(1, sampleTenant)], users := [(1, sampleUser)], clients := []
    email_to_user := [("a@x.com", 1)], verification_tokens := [("t1", 1)] }

/-- The durable store holding the same rows. -/
def realDb0 : RealDB := { tenants := [sampleTenant], users := [sampleUser], clients := [] }

/-- The in-memory store after GET /auth/verify?token=t1 succeeded once. -/
def mockDb1 : MockDB := (verify_email mockOps mockDb0 "t1").2

/-- The durable store after GET /auth/verify?token=t1 succeeded once. -/
def realDb1 : RealDB := (verify_email realOps realDb0 "t1").2

/-! ## C1 -/

/-- C1: the claim fails on the code.  A successful GET /auth/verify?token=t1
on a user stored with is_verified=false and verification_token="t1" sets
is_verified to true but leaves verification_token equal to "t1" in BOTH
implementations: verify_email passes None for the token and
update_user_verification only assigns the column when the parameter is not
None, so the token is never cleared and the invariant
is_verified == true implies verification_token == null is broken. -/
theorem verify_email_sets_verified_but_never_clears_token :
    (verify_email mockOps mockDb0 "t1").1 = ApiResult.ok "Email verified successfully" ∧
    MockDatabase.get_user mockDb1 1 =
      some { sampleUser with is_verified := true, verification_token := some "t1" } ∧
    (verify_email realOps realDb0 "t1").1 = ApiResult.ok "Email verified successfully" ∧
    RealDatabase.get_user realDb1 1 =
      some { sampleUser with is_verified := true, verification_token := some "t1" } := by
  decide

/-! ## C2 -/

/-- C2: the claim fails on the code.  Because the first successful verify
never nulls the token (see C1), a second GET /auth/verify?token=t1 with no
intervening resend finds the user again and returns 200 in both
implementations, not the BadRequest the claim states. -/
theorem verify_email_second_call_succeeds_again :
    (verify_email mockOps mockDb1 "t1").1 = ApiResult.ok "Email verified successfully" ∧
    (verify_email realOps realDb1 "t1").1 = ApiResult.ok "Email verified successfully" := by
  decide

/-! ## C3 -/

/-- The in-memory store after POST /auth/resend-verification rotated the
token of sampleUser from "t1" to "t2". -/
def mockDb2 : MockDB := (resend_verification_email mockOps mockDb0 "a@x.com" "t2" true).2

/-- C3: the claim fails on the code.  A successful resend stores the new
token "t2" but never removes the verification_tokens index entry for the
old token "t1" (the branch of update_user_verification that would delete
it is unreachable for a non-empty new token, and it reads the token field
only after that field was overwritten), so
get_user_by_verification_token "t1" still returns the user: the old token
is not invalidated and the secondary index is stale. -/
theorem resend_keeps_old_token_resolving :
    (resend_verification_email mockOps mockDb0 "a@x.com" "t2" true).1 =
      ApiResult.ok "Verification email sent successfully" ∧
    MockDatabase.get_user_by_verification_token mockDb2 "t1" =
      some { sampleUser with verification_token := some "t2" } ∧
    (MockDatabase.get_user_by_email mockDb2 "a@x.com").map UserRec.verification_token =
      some (some "t2") := by
  decide

/-! ## C8 -/

/-- C8: the claim fails on the code.  verify_password delegates to
pwd_context.verify with no try/except; on a stored digest that is not a
valid digest of the configured bcrypt scheme, passlib raises
UnknownHashError and verify_password propagates it to the caller instead
of returning false. -/
theorem verify_password_raises_on_invalid_digest :
    verify_password "pw" "notahash" = Except.error PasslibError.unknownHash ∧
    verify_password "pw" (get_password_hash "pw") = Except.ok true :=
  ⟨rfl, rfl⟩

/-! ## C9 -/

/-- A stored client, identical in both stores. -/
def sampleClient : ClientRec :=
  { id := 5, tenant_id := 1, full_name := "Ann", birthday := none, tags := [] }

/-- In-memory store holding sampleClient. -/
def mockDbC : MockDB :=
  { tenants := [(1, sampleTenant)], users := [], clients := [(5, sampleClient)]
    email_to_user := [], verification_tokens := [] }

/-- Durable store holding the same client row. -/
def realDbC : RealDB := { tenants := [sampleTenant], users := [], clients := [sampleClient] }

/-- C9 counterexample: the two implementations are not interchangeable.
Starting from stores holding the same single client, the same
update_client call with payload containing the key tenant_id yields
observably different stores: the in-memory implementation silently drops
the key (its whitelist is full_name/birthday/tags) while the durable one
applies it through hasattr/setattr, so the records returned by the update
and by the subsequent get_client disagree between the implementations. -/
theorem update_client_implementations_diverge :
    (MockDatabase.update_client mockDbC 5 [ClientEntry.tenant_id 2]).1 =
      some sampleClient ∧
    (RealDatabase.update_client realDbC 5 [ClientEntry.tenant_id 2]).1 =
      some { sampleClient with tenant_id := 2 } ∧
    MockDatabase.get_client (MockDatabase.update_client mockDbC 5 [ClientEntry.tenant_id 2]).2 5 ≠
      RealDatabase.get_client (RealDatabase.update_client realDbC 5 [ClientEntry.tenant_id 2]).2 5 := by
  decide

/-- Whether an update_client payload entry is a key the in-memory
implementation applies: full_name, birthday or tags. -/
def whitelistedEntry : ClientEntry → Bool
  | ClientEntry.full_name _ => true
  | ClientEntry.birthday _ => true
  | ClientEntry.tags _ => true
  | ClientEntry.tenant_id _ => false
  | ClientEntry.other _ => false

/-- C9 amended: the implementations agree on update_client only for
payloads restricted to the fields full_name, birthday and tags (the
in-memory whitelist); on those payloads both apply exactly the same field
updates to a client record.  Payloads touching any other model column
(such as tenant_id) are applied by the durable implementation but ignored
by the in-memory one, as the counterexample shows. -/
theorem update_client_agrees_on_whitelisted_fields (c : ClientRec)
    (payload : List ClientEntry)
    (h : ∀ e ∈ payload, whitelistedEntry e = true) :
    payload.foldl MockDatabase.applyClientEntry c =
      payload.foldl RealDatabase.applyClientEntry c := by
  induction payload generalizing c with
  | nil => rfl
  | cons e rest ih =>
    have he : whitelistedEntry e = true := h e (List.mem_cons_self e rest)
    have hrest : ∀ x ∈ rest, whitelistedEntry x = true :=
      fun x hx => h x (List.mem_cons_of_mem e hx)
    have hstep : MockDatabase.applyClientEntry c e = RealDatabase.applyClientEntry c e := by
      cases e <;> simp_all [whitelistedEntry, MockDatabase.applyClientEntry,
        RealDatabase.applyClientEntry]
    simp only [List.foldl_cons, hstep]
    exact ih _ hrest

/-- C9 witness: the amended agreement evaluated on a concrete client and a
concrete whitelisted payload. -/
theorem update_client_agrees_on_whitelisted_fields_witness :
    [ClientEntry.full_name "Bea", ClientEntry.tags ["vip"]].foldl
        MockDatabase.applyClientEntry sampleClient =
      [ClientEntry.full_name "Bea", ClientEntry.tags ["vip"]].foldl
        RealDatabase.applyClientEntry sampleClient :=
  update_client_agrees_on_whitelisted_fields sampleClient
    [ClientEntry.full_name "Bea", ClientEntry.tags ["vip"]] (by decide)

/-! ## C4 -/

/-- C4: POST /auth/register with an email that already belongs to a stored
user raises the duplicate-email HTTPException with status 400 before any
write, leaving the store exactly as it was (holds for every implementation
of the storage interface, the endpoint only consults get_user_by_email
first). -/
theorem register_duplicate_email_conflict {σ : Type} (ops : DatabaseOps σ) (db : σ)
    (auth_data : AuthRegister) (u : UserRec) (freshTenantId freshUserId : UUID)
    (freshToken : String)
    (h : ops.get_user_by_email db auth_data.email = some u) :
    register ops db auth_data freshTenantId freshUserId freshToken =
      (ApiResult.error { status_code := 400, detail := "Email already registered" }, db) := by
  unfold register
  rw [h]

/-- C4 witness: the duplicate-registration rejection evaluated on the
concrete in-memory store holding sampleUser. -/
theorem register_duplicate_email_conflict_witness :
    register mockOps mockDb0
        { email := "a@x.com", password := "other", tenant_name := "Acme2"
          role := "therapist", locale := "en" } 7 8 "t9" =
      (ApiResult.error { status_code := 400, detail := "Email already registered" },
        mockDb0) :=
  register_duplicate_email_conflict mockOps mockDb0
    { email := "a@x.com", password := "other", tenant_name := "Acme2"
      role := "therapist", locale := "en" } sampleUser 7 8 "t9" (by decide)

/-! ## C6 -/

/-- C6: create_access_token without an explicit expires_delta expires the
token 15 minutes after now, while every successful login issues its token
with the explicit ACCESS_TOKEN_EXPIRE_MINUTES = 30 delta and sets the
session cookie with max_age 1800 seconds, the same 30-minute TTL. -/
theorem access_token_default_and_login_ttls :
    (∀ (sub : String) (now : Int),
      create_access_token sub none now = { sub := some sub, exp := now + 15 * 60 }) ∧
    ACCESS_TOKEN_EXPIRE_MINUTES = 30 ∧
    (∀ (σ : Type) (ops : DatabaseOps σ) (db : σ) (auth_data : AuthLogin) (now : Int)
        (resp : AuthResponse) (cookie : SessionCookie),
      login ops db auth_data now = LoginResult.success resp cookie →
      cookie.max_age = 1800 ∧
      cookie.token.exp = now + ACCESS_TOKEN_EXPIRE_MINUTES * 60 ∧
      (ACCESS_TOKEN_EXPIRE_MINUTES * 60 : Int) = 1800) := by
  refine ⟨fun sub now => rfl, rfl, ?_⟩
  intro σ ops db auth_data now resp cookie h
  unfold login at h
  cases hu : ops.get_user_by_email db auth_data.email with
  | none => simp only [hu] at h; cases h
  | some user =>
    simp only [hu] at h
    cases hv : verify_password auth_data.password user.password_hash with
    | error e => simp only [hv] at h; cases h
    | ok b =>
      simp only [hv] at h
      split at h
      · cases h
      · split at h
        · cases h
        · injection h with h1 h2
          subst h2
          refine ⟨rfl, ?_, rfl⟩
          simp [create_access_token, timedeltaTruthy, ACCESS_TOKEN_EXPIRE_MINUTES]

/-! ## C7 -/

/-- C7: verify_token is total — it never lets an error of jwt.decode reach
its caller.  A decode that returns a payload (well-formed, correctly
signed, unexpired token) is passed through; every JWTError outcome
(signature mismatch, malformed structure, expired exp claim, bad claims)
is swallowed into None. -/
theorem verify_token_never_raises (decode : String → Except JWTError TokenPayload)
    (token : String) :
    (∀ p, decode token = Except.ok p → verify_token decode token = some p) ∧
    (∀ e, decode token = Except.error e → verify_token decode token = none) := by
  constructor
  · intro p h
    simp [verify_token, h]
  · intro e h
    simp [verify_token, h]

/-! ## C5 -/

/-- Replacing elements of a list by a function that fixes every
non-matching element or turns it into the matching u' moves find? from u
to u'. -/
lemma find?_map_replace {α : Type} (p : α → Bool) (f : α → α) (u u' : α)
    (hfu : f u = u') (hp : p u' = true)
    (hother : ∀ x, p x = false → f x = x ∨ f x = u')
    (l : List α) (h : l.find? p = some u) :
    (l.map f).find? p = some u' := by
  induction l with
  | nil => simp at h
  | cons a t ih =>
    rw [List.map_cons]
    by_cases ha : p a = true
    · rw [List.find?_cons_of_pos _ ha] at h
      injection h with h
      subst h
      rw [hfu]
      exact List.find?_cons_of_pos _ hp
    · have ha' : p a = false := by simpa using ha
      rw [List.find?_cons_of_neg _ (by simp [ha'])] at h
      rcases hother a ha' with hfa | hfa
      · rw [hfa, List.find?_cons_of_neg _ (by simp [ha'])]
        exact ih h
      · rw [hfa]
        exact List.find?_cons_of_pos _ hp

/-- C5: for a registered user whose stored password verifies, login while
is_verified is false fails 401 with the distinct unverified detail
(different from the bad-credential detail); after GET /auth/verify
succeeds with that user's token, the same credentials log in with the full
success response and session cookie. -/
theorem unverified_login_then_verify_then_login (db : RealDB) (u : UserRec)
    (E P t : String) (now : Int)
    (hemail : RealDatabase.get_user_by_email db E = some u)
    (hpw : verify_password P u.password_hash = Except.ok true)
    (hunv : u.is_verified = false)
    (htok : RealDatabase.get_user_by_verification_token db t = some u)
    (hid : RealDatabase.get_user db u.id = some u) :
    login realOps db { email := E, password := P } now =
      LoginResult.httpError { status_code := 401,
                              detail := "Email not verified. Please check your email and verify your account." } ∧
    "Email not verified. Please check your email and verify your account." ≠
      "Incorrect email or password" ∧
    (verify_email realOps db t).1 = ApiResult.ok "Email verified successfully" ∧
    login realOps (verify_email realOps db t).2 { email := E, password := P } now =
      LoginResult.success
        { message := "Login successful", user_id := u.id, email := u.email,
          role := u.role, tenant_id := u.tenant_id }
        { key := "session_token",
          token := create_access_token (uuidCanonicalStr u.id) (some (ACCESS_TOKEN_EXPIRE_MINUTES * 60)) now,
          httponly := true, secure := false, samesite := "lax", max_age := 1800 } := by
  have hfind : db.users.find? (fun x => x.email == E) = some u := hemail
  have hfid : db.users.find? (fun x => x.id == u.id) = some u := hid
  have hpe := List.find?_some hfind
  refine ⟨?_, by decide, ?_, ?_⟩
  · simp [login, realOps, hemail, hpw, hunv]
  · simp [verify_email, realOps, htok]
  · have hupdate : (verify_email realOps db t).2 =
        { db with users := db.users.map (fun x => if x.id == u.id then { u with is_verified := true } else x) } := by
      simp [verify_email, realOps, htok, RealDatabase.update_user_verification, hfid]
    have hemail2 : RealDatabase.get_user_by_email (verify_email realOps db t).2 E =
        some { u with is_verified := true } := by
      rw [hupdate]
      unfold RealDatabase.get_user_by_email
      refine find?_map_replace _ _ u _ ?_ ?_ ?_ _ hfind
      · simp
      · simpa using hpe
      · intro x hx
        by_cases hxe : x.id == u.id
        · right; simp [hxe]
        · left; simp [hxe]
    set db2 := (verify_email realOps db t).2 with hdb2
    simp [login, realOps, hemail2, hpw]

/-- C5 witness: the whole scenario evaluated on the concrete durable store
holding sampleUser. -/
theorem unverified_login_then_verify_then_login_witness :
    login realOps realDb0 { email := "a@x.com", password := "pw" } 0 =
      LoginResult.httpError { status_code := 401,
                              detail := "Email not verified. Please check your email and verify your account." } ∧
    "Email not verified. Please check your email and verify your account." ≠
      "Incorrect email or password" ∧
    (verify_email realOps realDb0 "t1").1 = ApiResult.ok "Email verified successfully" ∧
    login realOps (verify_email realOps realDb0 "t1").2 { email := "a@x.com", password := "pw" } 0 =
      LoginResult.success
        { message := "Login successful", user_id := sampleUser.id, email := sampleUser.email,
          role := sampleUser.role, tenant_id := sampleUser.tenant_id }
        { key := "session_token",
          token := create_access_token (uuidCanonicalStr sampleUser.id) (some (ACCESS_TOKEN_EXPIRE_MINUTES * 60)) 0,
          httponly := true, secure := false, samesite := "lax", max_age := 1800 } :=
  unverified_login_then_verify_then_login realDb0 sampleUser "a@x.com" "pw" "t1" 0
    rfl rfl rfl rfl rfl

/-! ## C10 -/

/-- C10: get_current_user returns the 401 credentials exception in exactly
the four cases the claim lists — no (or falsy) credential, failed token
verification, missing sub claim, or a subject that does not resolve to a
stored user — while a verified payload whose sub string is not a valid
UUID makes UUID(user_id) raise a ValueError that the handler does not
catch. -/
theorem get_current_user_cases {σ : Type} (ops : DatabaseOps σ) (db : σ)
    (decode : String → Except JWTError TokenPayload) (bearer cookie : Option String) :
    (get_current_user ops db decode bearer cookie = CurrentUserResult.unauthorized ↔
      (pickToken bearer cookie = none ∨ pickToken bearer cookie = some "" ∨
        (∃ t, pickToken bearer cookie = some t ∧ t ≠ "" ∧ verify_token decode t = none) ∨
        (∃ t p, pickToken bearer cookie = some t ∧ t ≠ "" ∧
          verify_token decode t = some p ∧ p.sub = none) ∨
        (∃ t p s uid, pickToken bearer cookie = some t ∧ t ≠ "" ∧
          verify_token decode t = some p ∧ p.sub = some s ∧ pythonUUID s = some uid ∧
          ops.get_user db uid = none))) ∧
    (∀ s, get_current_user ops db decode bearer cookie = CurrentUserResult.uncaughtValueError s ↔
      (∃ t p, pickToken bearer cookie = some t ∧ t ≠ "" ∧ verify_token decode t = some p ∧
        p.sub = some s ∧ pythonUUID s = none)) := by
  unfold get_current_user
  rcases hpt : pickToken bearer cookie with _ | t
  · simp
  · by_cases ht : t = ""
    · subst ht
      simp
    · have ht' : (t == "") = false := by simpa using ht
      simp only [ht', Bool.false_eq_true, if_false]
      rcases hvt : verify_token decode t with _ | p
      · simp [hvt, ht]
      · rcases hsub : p.sub with _ | s0
        · simp [hvt, hsub, ht]
        · rcases huuid : pythonUUID s0 with _ | uid
          · simp [hvt, hsub, huuid, ht]
          · rcases hgu : ops.get_user db uid with _ | u
            · simp [hvt, hsub, huuid, hgu, ht]
            · simp [hvt, hsub, huuid, hgu, ht]

/-- A decode outcome standing for a validly signed, unexpired token whose
sub claim is not a UUID string. -/
def decodeStub : String → Except JWTError TokenPayload :=
  fun _ => Except.ok { sub := some "notauuid", exp := 3600 }

/-- C10 witness: the uncaught-ValueError case evaluated concretely through
the characterization. -/
theorem get_current_user_cases_witness :
    get_current_user mockOps mockDb0 decodeStub (some "tok") none =
      CurrentUserResult.uncaughtValueError "notauuid" := by
  refine ((get_current_user_cases mockOps mockDb0 decodeStub (some "tok") none).2 "notauuid").mpr ?_
  exact ⟨"tok", { sub := some "notauuid", exp := 3600 }, rfl, by decide, rfl, rfl, by decide⟩

end Illumate
